import Mathlib

/-!
Shallow embedding of the crop-prediction service (`app.py`): the weather
helper `get_weather`, and the `/predict` request pipeline `predict_crop`
(weather resolution with manual fallback, feature-vector assembly,
classifier invocation, top-3 ranking and rounding).

Modelling conventions:
- Parsed JSON values are `JVal` (null / bool / number-as-ℚ / string); a JSON
  object body is an association list `Obj` (first binding wins, as in a dict).
- The HTTP weather provider is an oracle `ProviderResult`: either a raised
  exception with its text, or a parsed JSON response (status field `cod`,
  optional `message` field whose value may be any JSON value including null,
  optional `main` object).
- The classifier artifact is an oracle `Model`: its label list `classes_` and
  its two inference operations, each of which may raise (modelled as
  `Except String`, carrying the exception text).
- `request.json` is a `ReqBody` oracle: it raises (Flask's `BadRequest` on
  an unparseable body, caught by the handler's catch-all), or is Python
  `None`, or is a parsed JSON object.
- Python `None` is `Option.none`; Python truthiness is `truthy`; Python's
  `round(x, 2)` (banker's rounding) is `pyRound2`; Python's stable
  `sorted(..., key=lambda x: x[1], reverse=True)` is `sortDesc`, a stable
  descending insertion sort on the probability component.
-/

namespace CropApp

/-- A parsed JSON value. Numbers are modelled as rationals. -/
inductive JVal where
  | null : JVal
  | bool : Bool → JVal
  | num : ℚ → JVal
  | str : String → JVal
deriving DecidableEq, Repr

/-- A parsed JSON object: association list of fields. -/
abbrev Obj := List (String × JVal)

/-- Dictionary lookup: first binding for the key, if any (`d.get(k)` / `d[k]`). -/
def lookup : Obj → String → Option JVal
  | [], _ => none
  | (k, v) :: rest, key => if k = key then some v else lookup rest key

/-- Python `k in d`. -/
def hasKey (o : Obj) (k : String) : Bool := (lookup o k).isSome

/-- Python truthiness of a JSON value. -/
def truthy : JVal → Bool
  | .null => false
  | .bool b => b
  | .num q => decide (q ≠ 0)
  | .str s => decide (s ≠ "")

/-- Is the value a JSON number? -/
def isNum : JVal → Bool
  | .num _ => true
  | _ => false

/-- Python `str()` of a JSON value, as used by f-string interpolation.
(Numeric formatting approximates Python's float repr; no claim depends on it.) -/
def pyStr : JVal → String
  | .null => "None"
  | .bool true => "True"
  | .bool false => "False"
  | .num q => toString q
  | .str s => s

/-- Python `str()` of an optional value (`None` prints as "None"). -/
def pyStrOpt : Option JVal → String
  | none => "None"
  | some v => pyStr v

/-- `d.get(k, default)` returns the stored value even when it is JSON null;
a JSON null becomes Python `None`, i.e. `Option.none` here. -/
def pyNone : JVal → Option JVal
  | .null => none
  | v => some v

/-- A parsed weather-provider JSON response: the `cod` status field, the
`message` field (present with an arbitrary value, or absent), and the `main`
object containing `temp` and `humidity`. -/
structure ProviderResponse where
  cod : Option JVal
  message : Option JVal
  main : Option Obj
deriving DecidableEq, Repr

/-- Outcome of the outbound weather call: a raised exception (network error,
timeout, non-JSON body, ...) with its text, or a parsed JSON response. -/
inductive ProviderResult where
  | exc : String → ProviderResult
  | resp : ProviderResponse → ProviderResult
deriving DecidableEq, Repr

/-- `get_weather(city, api_key)` (app.py lines 25-36): on a `cod == 200`
response extract `main.temp` and `main.humidity`; on a non-200 response
return no reading and `response.get("message", "Unknown error")`; any raised
exception (including a `KeyError` on a malformed 200 response) is caught and
returned as its text. First component: the reading; second: the error. -/
def get_weather : ProviderResult → Option (JVal × JVal) × Option JVal
  | .exc m => (none, some (.str m))
  | .resp r =>
    if r.cod = some (JVal.num 200) then
      match r.main with
      | none => (none, some (.str "\x27main\x27"))
      | some mainObj =>
        match lookup mainObj "temp" with
        | none => (none, some (.str "\x27temp\x27"))
        | some t =>
          match lookup mainObj "humidity" with
          | none => (none, some (.str "\x27humidity\x27"))
          | some h => (some (t, h), none)
    else
      (none, match r.message with
             | some v => pyNone v
             | none => some (.str "Unknown error"))

/-- Truthiness of `data.get("api_key") or os.environ.get("OPENWEATHER_API_KEY")`
(app.py line 50); `env` is the optional environment variable. -/
def apiKeyTruthy (data : Obj) (env : Option String) : Bool :=
  (match lookup data "api_key" with
   | some v => truthy v
   | none => false) ||
  (match env with
   | some s => decide (s ≠ "")
   | none => false)

/-- The guard `"city" in data and api_key` (app.py line 51): exactly when it
holds is the weather provider invoked. -/
def providerInvoked (data : Obj) (env : Option String) : Bool :=
  hasKey data "city" && apiKeyTruthy data env

/-- Weather resolution (app.py lines 48-63): call the provider when city and
credential are available; if no reading was obtained, fall back to the
caller-supplied `temperature`/`humidity` when both are present; otherwise
fail, carrying the provider error (Python `None` when none). -/
def weatherStep (data : Obj) (env : Option String) (prov : ProviderResult) :
    Except (Option JVal) (JVal × JVal) :=
  match (if providerInvoked data env then get_weather prov else (none, none)) with
  | (some th, _) => .ok th
  | (none, e) =>
    match lookup data "temperature", lookup data "humidity" with
    | some t, some h => .ok (t, h)
    | _, _ => .error e

/-- The DataFrame column names of app.py line 71, in source order. -/
def featureColumns : List String :=
  ["N", "P", "K", "temperature", "humidity", "ph", "rainfall"]

/-- Feature-vector assembly (app.py lines 66-73): read the five soil fields
in the evaluation order `N, P, K, ph, rainfall`; the first absent key raises
`KeyError` carrying that key (the handler formats it as `str(ke)`, i.e. the
quoted key). Values are passed through untyped. -/
def assemble (data : Obj) (t h : JVal) : Except String (List JVal) :=
  match lookup data "N" with
  | none => .error "N"
  | some n =>
    match lookup data "P" with
    | none => .error "P"
    | some p =>
      match lookup data "K" with
      | none => .error "K"
      | some k =>
        match lookup data "ph" with
        | none => .error "ph"
        | some ph =>
          match lookup data "rainfall" with
          | none => .error "rainfall"
          | some rf => .ok [n, p, k, t, h, ph, rf]

/-- The classifier artifact: label list `classes_` and the two inference
operations, each possibly raising (exception text in `Except.error`). Both
are Lean functions, hence pure and deterministic, matching the contract. -/
structure Model where
  classes_ : List String
  predict : List JVal → Except String String
  predict_proba : List JVal → Except String (List ℚ)

/-- The descending comparison `sorted(..., key=lambda x: x[1], reverse=True)`
sorts by: `probDesc a b` iff `a`'s probability is ≥ `b`'s. -/
def probDesc (a b : String × ℚ) : Bool := decide (b.2 ≤ a.2)

/-- Stable insert for the descending sort: `x` goes in front of the first
entry it compares ≥ to, hence in front of entries of equal probability that
occur later in the original list. -/
def insertDesc (x : String × ℚ) : List (String × ℚ) → List (String × ℚ)
  | [] => [x]
  | y :: ys => if probDesc x y then x :: y :: ys else y :: insertDesc x ys

/-- Python's `sorted(..., key=lambda x: x[1], reverse=True)`: a stable sort,
descending in the probability component (app.py line 78). -/
def sortDesc : List (String × ℚ) → List (String × ℚ)
  | [] => []
  | x :: xs => insertDesc x (sortDesc xs)

/-- `sorted(zip(model.classes_, probs), key=lambda x: x[1], reverse=True)`. -/
def rankAll (classes : List String) (probs : List ℚ) : List (String × ℚ) :=
  sortDesc (classes.zip probs)

/-- `[:3]`: the top-3 entries, full precision. -/
def rankTop3 (classes : List String) (probs : List ℚ) : List (String × ℚ) :=
  (rankAll classes probs).take 3

/-- `x * 100`, computed on the numerator. Equal to `x * 100` (`ratMul100_eq`
below); spelled with `mkRat` to stay kernel-computable. -/
def ratMul100 (x : ℚ) : ℚ := mkRat (x.num * 100) x.den

/-- Round half to even to an integer (what Python's `round` does on a
tie-exact value). The comparisons of the fractional part against `1/2` are
spelled on the numerator (`fract q < 1/2  ↔  2*(num - floor*den) < den`) to
stay kernel-computable; `roundHalfEven_eq_ite` below restates it with `⌊·⌋`. -/
def roundHalfEven (q : ℚ) : ℤ :=
  if 2 * (q.num - Rat.floor q * q.den) < (q.den : ℤ) then Rat.floor q
  else if (q.den : ℤ) < 2 * (q.num - Rat.floor q * q.den) then Rat.floor q + 1
  else if Rat.floor q % 2 = 0 then Rat.floor q else Rat.floor q + 1

/-- Python `round(x, 2)`: round half to even at the second decimal. -/
def pyRound2 (x : ℚ) : ℚ := mkRat (roundHalfEven (ratMul100 x)) 100

/-- The reported top-3: percentage-scaled and rounded for presentation only
(`round(prob * 100, 2)`, app.py line 89), applied after ranking. -/
def reportTop3 (classes : List String) (probs : List ℚ) : List (String × ℚ) :=
  (rankTop3 classes probs).map (fun cp => (cp.1, pyRound2 (ratMul100 cp.2)))

/-- The JSON body of a successful prediction response (app.py lines 80-91). -/
structure SuccessBody where
  city : Option JVal
  weather_temperature : JVal
  weather_humidity : JVal
  soil : List (String × JVal)
  prediction : String
  top3 : List (String × ℚ)
deriving DecidableEq, Repr

/-- A response body: an error object or a success object. -/
inductive RespBody where
  | err : String → RespBody
  | ok : SuccessBody → RespBody
deriving DecidableEq, Repr

/-- An HTTP response: status code and JSON body. -/
structure Response where
  status : ℕ
  body : RespBody
deriving DecidableEq, Repr

/-- Outcome of evaluating `request.json` inside the handler's `try` block:
it raises (Flask maps a syntactically unparseable JSON body to a
`BadRequest` exception, carried here with its text), or evaluates to Python
`None` (no JSON body), or yields a parsed JSON object. -/
inductive ReqBody where
  | exc : String → ReqBody
  | noBody : ReqBody
  | obj : Obj → ReqBody
deriving DecidableEq, Repr

/-- The exception text of Flask/werkzeug's `BadRequest` raised by
`request.json` on a syntactically invalid body (concrete input). -/
def badJsonMsg : String :=
  "400 Bad Request: Failed to decode JSON object: Expecting value: line 1 column 1 (char 0)"

/-- The `/predict` handler `predict_crop` (app.py lines 41-93). `reqBody` is
the outcome of `data = request.json` (line 44): when that raises — Flask
raises `BadRequest` on an unparseable body — the exception is caught by the
catch-all at lines 92-93 and returned as HTTP 500 with `str(e)`; when it is
`None`, or a falsy (empty) object, the `not data` check returns the 400.
`env` is the optional `OPENWEATHER_API_KEY`; `prov` the provider oracle;
`m` the loaded model. -/
def predict_crop (reqBody : ReqBody) (env : Option String)
    (prov : ProviderResult) (m : Model) : Response :=
  match reqBody with
  | .exc msg => ⟨500, .err msg⟩
  | .noBody => ⟨400, .err "No input data provided"⟩
  | .obj data =>
    if data.isEmpty then ⟨400, .err "No input data provided"⟩
    else
      match weatherStep data env prov with
      | .error e =>
        ⟨500, .err ("Weather API failed: " ++ pyStrOpt e ++
                    ". Provide \x27temperature\x27 and \x27humidity\x27 manually.")⟩
      | .ok (t, h) =>
        match assemble data t h with
        | .error ke => ⟨400, .err ("Missing required field: \x27" ++ ke ++ "\x27")⟩
        | .ok vec =>
          match m.predict vec with
          | .error e => ⟨500, .err e⟩
          | .ok pred =>
            match m.predict_proba vec with
            | .error e => ⟨500, .err e⟩
            | .ok probs =>
              ⟨200, .ok
                { city := lookup data "city"
                  weather_temperature := t
                  weather_humidity := h
                  soil := [("N", (lookup data "N").getD .null),
                           ("P", (lookup data "P").getD .null),
                           ("K", (lookup data "K").getD .null),
                           ("ph", (lookup data "ph").getD .null),
                           ("rainfall", (lookup data "rainfall").getD .null)]
                  prediction := pred
                  top3 := reportTop3 m.classes_ probs }⟩

/-- The `top3` field of a successful response, if the response is a success. -/
def top3Of : Response → Option (List (String × ℚ))
  | ⟨_, .ok b⟩ => some b.top3
  | _ => none

/-- The descending order on ranked entries, as a proposition. -/
def DescOrd (a b : String × ℚ) : Prop := b.2 ≤ a.2

/-- Kernel-computable rational addition (Batteries' `Rat.add` is marked
irreducible); equal to `+` by `addQ_eq`. -/
def addQ (a b : ℚ) : ℚ := mkRat (a.num * b.den + b.num * a.den) (a.den * b.den)

/-- Kernel-computable sum of a list of rationals; equals `List.sum` (`sumQ_eq`). -/
def sumQ : List ℚ → ℚ
  | [] => 0
  | p :: ps => addQ p (sumQ ps)

/-- Computable well-formedness of a class-probability distribution: every
entry nonnegative and the total at most 1 (the spec's "sums to ≈1.0"). -/
def distOk (ps : List ℚ) : Bool :=
  ps.all (fun p => decide (0 ≤ p)) && decide (sumQ ps ≤ 1)

/-- Does the provider result consist of a non-success response whose
`message` field is literally JSON null? (The single case in which
`get_weather` reports neither a reading nor an error.) -/
def msgFieldNull : ProviderResult → Bool
  | .resp r => decide (r.cod ≠ some (JVal.num 200)) && decide (r.message = some JVal.null)
  | .exc _ => false

/-- Concrete input: a fully-populated manual-weather request body. -/
def cexData : Obj :=
  [("N", .num 90), ("P", .num 42), ("K", .num 43),
   ("temperature", .num 25), ("humidity", .num 80),
   ("ph", .num (mkRat 13 2)), ("rainfall", .num 200)]

/-- Concrete model: three labels, distribution summing to exactly 1, whose
rounded top-3 percentages sum to 100.01. -/
def m0 : Model :=
  ⟨["a", "b", "c"], fun _ => .ok "a",
   fun _ => .ok [mkRat 33336 100000, mkRat 33336 100000, mkRat 33328 100000]⟩

/-- Concrete model: same labels and distribution as `m0`, different label op. -/
def m8 : Model :=
  ⟨["a", "b", "c"], fun _ => .ok "b",
   fun _ => .ok [mkRat 33336 100000, mkRat 33336 100000, mkRat 33328 100000]⟩

/-- Concrete input: manual weather, no city. -/
def d2 : Obj := [("N", .num 90), ("temperature", .num 25), ("humidity", .num 80)]

/-- Concrete input: manual weather, all soil fields except `K`. -/
def d3 : Obj :=
  [("temperature", .num 25), ("humidity", .num 80),
   ("N", .num 90), ("P", .num 42), ("ph", .num 7), ("rainfall", .num 200)]

/-- Concrete input: a city but no manual weather values. -/
def d4 : Obj := [("city", .str "Paris"), ("N", .num 90)]

/-- Concrete provider response: expired/invalid credential. -/
def prov4 : ProviderResult :=
  .resp ⟨some (.num 401), some (.str "Invalid API key"), none⟩

/-- Concrete input: soil field `N` is a string rather than a number. -/
def d9 : Obj :=
  [("N", .str "abc"), ("P", .num 42), ("K", .num 43),
   ("temperature", .num 25), ("humidity", .num 80),
   ("ph", .num 7), ("rainfall", .num 200)]

/-- Concrete model: inference raises, as scikit-learn does on a non-numeric
feature value. -/
def m9 : Model :=
  ⟨["a"], fun _ => .error "could not convert string to float: \x27abc\x27",
   fun _ => .ok []⟩

/-- Concrete provider response: non-success with a JSON-null message field. -/
def nullMsgResp : ProviderResult := .resp ⟨some (.num 404), some .null, none⟩

/-- Membership in a stable insert. -/
theorem mem_insertDesc {x y : String × ℚ} {l : List (String × ℚ)} :
    y ∈ insertDesc x l ↔ y = x ∨ y ∈ l := by
  induction l with
  | nil => simp [insertDesc]
  | cons z zs ih =>
    by_cases h : probDesc x z
    · simp [insertDesc, h, ih]
    · simp [insertDesc, h, ih]
      tauto

/-- Stable insert preserves descending sortedness. -/
theorem pairwise_insertDesc {x : String × ℚ} {l : List (String × ℚ)}
    (h : l.Pairwise DescOrd) : (insertDesc x l).Pairwise DescOrd := by
  induction l with
  | nil => simp [insertDesc, List.pairwise_singleton]
  | cons y ys ih =>
    rw [List.pairwise_cons] at h
    by_cases hc : probDesc x y
    · have hxy : y.2 ≤ x.2 := of_decide_eq_true hc
      rw [insertDesc, if_pos hc]
      refine List.Pairwise.cons ?_ (List.Pairwise.cons h.1 h.2)
      intro z hz
      rcases List.mem_cons.mp hz with hz | hz
      · exact hz ▸ hxy
      · exact le_trans (h.1 z hz) hxy
    · have hyx : x.2 < y.2 := lt_of_not_le (fun hle => hc (decide_eq_true hle))
      rw [insertDesc, if_neg hc]
      refine List.Pairwise.cons ?_ (ih h.2)
      intro z hz
      rcases mem_insertDesc.mp hz with hz | hz
      · exact hz ▸ le_of_lt hyx
      · exact h.1 z hz

/-- Stable insert is a permutation of consing. -/
theorem perm_insertDesc (x : String × ℚ) (l : List (String × ℚ)) :
    List.Perm (insertDesc x l) (x :: l) := by
  induction l with
  | nil => rfl
  | cons y ys ih =>
    by_cases h : probDesc x y
    · rw [insertDesc, if_pos h]
    · rw [insertDesc, if_neg h]
      exact (ih.cons y).trans (List.Perm.swap x y ys)

/-- The stable descending sort permutes its input. -/
theorem sortDesc_perm (l : List (String × ℚ)) : List.Perm (sortDesc l) l := by
  induction l with
  | nil => rfl
  | cons x xs ih => exact (perm_insertDesc x (sortDesc xs)).trans (ih.cons x)

/-- The stable descending sort is sorted: probabilities are non-increasing. -/
theorem sortDesc_pairwise (l : List (String × ℚ)) :
    (sortDesc l).Pairwise DescOrd := by
  induction l with
  | nil => exact List.Pairwise.nil
  | cons x xs ih => exact pairwise_insertDesc ih

/-- Filtering to one probability value commutes with a stable insert. -/
theorem filter_insertDesc (q : ℚ) (x : String × ℚ) (l : List (String × ℚ)) :
    (insertDesc x l).filter (fun z => decide (z.2 = q)) =
      if x.2 = q then x :: l.filter (fun z => decide (z.2 = q))
      else l.filter (fun z => decide (z.2 = q)) := by
  induction l with
  | nil => by_cases hx : x.2 = q <;> simp [insertDesc, hx]
  | cons y ys ih =>
    by_cases hc : probDesc x y
    · rw [insertDesc, if_pos hc]
      by_cases hx : x.2 = q <;> simp [hx]
    · have hyx : x.2 < y.2 := lt_of_not_le (fun hle => hc (decide_eq_true hle))
      rw [insertDesc, if_neg hc]
      by_cases hx : x.2 = q
      · have hy : ¬(y.2 = q) := by rw [← hx]; exact ne_of_gt hyx
        simp [hx, hy, ih]
      · by_cases hy : y.2 = q <;> simp [hx, hy, ih]

/-- Stability of the sort: the entries carrying any fixed probability value
appear in the sorted output exactly in their input order. -/
theorem sortDesc_filter (q : ℚ) (l : List (String × ℚ)) :
    (sortDesc l).filter (fun z => decide (z.2 = q)) =
      l.filter (fun z => decide (z.2 = q)) := by
  induction l with
  | nil => rfl
  | cons x xs ih =>
    rw [sortDesc, filter_insertDesc]
    by_cases hx : x.2 = q <;> simp [hx, ih]


theorem ratFloor_eq_floor (q : ℚ) : (Rat.floor q : ℤ) = ⌊q⌋ :=
  (Rat.floor_def' q).trans Rat.floor_def.symm

theorem ratMul100_eq (x : ℚ) : ratMul100 x = x * 100 := by
  rw [ratMul100, Rat.mkRat_eq_divInt, Rat.divInt_eq_div]
  push_cast
  rw [mul_div_right_comm, Rat.num_div_den]

theorem pyRound2_eq (x : ℚ) : pyRound2 x = (roundHalfEven (x * 100) : ℚ) / 100 := by
  rw [pyRound2, ratMul100_eq, Rat.mkRat_eq_divInt, Rat.divInt_eq_div]
  norm_num

theorem two_mul_num_lt_iff (q : ℚ) :
    (2 * (q.num - ⌊q⌋ * q.den) < (q.den : ℤ)) ↔ Int.fract q < 1/2 := by
  have hd : (0:ℚ) < (q.den : ℚ) := by exact_mod_cast q.pos
  have hnum : (q.num : ℚ) = q * (q.den : ℚ) :=
    (div_eq_iff (ne_of_gt hd)).mp (Rat.num_div_den q)
  have key : (2 * ((q.num : ℚ) - (⌊q⌋ : ℚ) * (q.den : ℚ)) < (q.den : ℚ)) ↔
      Int.fract q < 1/2 := by
    rw [hnum, Int.fract]
    constructor <;> intro h <;> nlinarith [hd]
  rw [← key]
  constructor <;> intro h <;> exact_mod_cast h

theorem den_lt_two_mul_num_iff (q : ℚ) :
    ((q.den : ℤ) < 2 * (q.num - ⌊q⌋ * q.den)) ↔ 1/2 < Int.fract q := by
  have hd : (0:ℚ) < (q.den : ℚ) := by exact_mod_cast q.pos
  have hnum : (q.num : ℚ) = q * (q.den : ℚ) :=
    (div_eq_iff (ne_of_gt hd)).mp (Rat.num_div_den q)
  have key : ((q.den : ℚ) < 2 * ((q.num : ℚ) - (⌊q⌋ : ℚ) * (q.den : ℚ))) ↔
      1/2 < Int.fract q := by
    rw [hnum, Int.fract]
    constructor <;> intro h <;> nlinarith [hd]
  rw [← key]
  constructor <;> intro h <;> exact_mod_cast h

theorem roundHalfEven_eq_ite (q : ℚ) : roundHalfEven q =
    if Int.fract q < 1/2 then ⌊q⌋
    else if 1/2 < Int.fract q then ⌊q⌋ + 1
    else if ⌊q⌋ % 2 = 0 then ⌊q⌋ else ⌊q⌋ + 1 := by
  rw [roundHalfEven, ratFloor_eq_floor]
  simp only [two_mul_num_lt_iff, den_lt_two_mul_num_iff]

theorem floor_le_roundHalfEven (q : ℚ) : ⌊q⌋ ≤ roundHalfEven q := by
  rw [roundHalfEven_eq_ite]
  split_ifs <;> omega

theorem roundHalfEven_le_floor_add_one (q : ℚ) : roundHalfEven q ≤ ⌊q⌋ + 1 := by
  rw [roundHalfEven_eq_ite]
  split_ifs <;> omega

theorem roundHalfEven_mono {p q : ℚ} (h : p ≤ q) :
    roundHalfEven p ≤ roundHalfEven q := by
  rcases lt_or_eq_of_le (Int.floor_le_floor h) with hf | hf
  · calc roundHalfEven p ≤ ⌊p⌋ + 1 := roundHalfEven_le_floor_add_one p
      _ ≤ ⌊q⌋ := Int.add_one_le_iff.mpr hf
      _ ≤ roundHalfEven q := floor_le_roundHalfEven q
  · have hfr : Int.fract p ≤ Int.fract q := by
      rw [Int.fract, Int.fract, hf]
      linarith
    rw [roundHalfEven_eq_ite, roundHalfEven_eq_ite, ← hf]
    split_ifs <;> first | omega | linarith

theorem pyRound2_mono {x y : ℚ} (h : x ≤ y) : pyRound2 x ≤ pyRound2 y := by
  rw [pyRound2_eq, pyRound2_eq]
  have hr : roundHalfEven (x * 100) ≤ roundHalfEven (y * 100) :=
    roundHalfEven_mono (by linarith)
  have : (roundHalfEven (x * 100) : ℚ) ≤ (roundHalfEven (y * 100) : ℚ) := by
    exact_mod_cast hr
  linarith

theorem num_eq_mul_den (q : ℚ) : (q.num : ℚ) = q * (q.den : ℚ) :=
  (div_eq_iff (by exact_mod_cast ne_of_gt q.pos)).mp (Rat.num_div_den q)

theorem addQ_eq (a b : ℚ) : addQ a b = a + b := by
  have ha : ((a.den : ℚ)) ≠ 0 := by exact_mod_cast ne_of_gt a.pos
  have hb : ((b.den : ℚ)) ≠ 0 := by exact_mod_cast ne_of_gt b.pos
  rw [addQ, Rat.mkRat_eq_divInt, Rat.divInt_eq_div]
  push_cast
  rw [div_eq_iff (by positivity)]
  rw [num_eq_mul_den a, num_eq_mul_den b]
  ring

theorem sumQ_eq (l : List ℚ) : sumQ l = l.sum := by
  induction l with
  | nil => rfl
  | cons p ps ih => rw [sumQ, addQ_eq, ih, List.sum_cons]

theorem distOk_spec {ps : List ℚ} (h : distOk ps = true) :
    (∀ p ∈ ps, 0 ≤ p) ∧ ps.sum ≤ 1 := by
  rw [distOk, Bool.and_eq_true] at h
  refine ⟨fun p hp => of_decide_eq_true (List.all_eq_true.mp h.1 p hp), ?_⟩
  have h2 := of_decide_eq_true h.2
  rwa [sumQ_eq] at h2

theorem sum_take_le (l : List ℚ) (n : ℕ) (h : ∀ p ∈ l, 0 ≤ p) :
    (l.take n).sum ≤ l.sum := by
  have hsplit : (l.take n).sum + (l.drop n).sum = l.sum := List.sum_take_add_sum_drop l n
  have hdrop : 0 ≤ (l.drop n).sum :=
    List.sum_nonneg (fun x hx => h x (List.drop_subset n l hx))
  linarith

theorem sum_snd_zip_le (c : List String) (p : List ℚ) (h : ∀ x ∈ p, 0 ≤ x) :
    ((c.zip p).map Prod.snd).sum ≤ p.sum := by
  induction c generalizing p with
  | nil => simpa using List.sum_nonneg h
  | cons a as ih =>
    cases p with
    | nil => simp
    | cons q qs =>
      have hq := ih qs (fun x hx => h x (List.mem_cons_of_mem q hx))
      have h0 : (0:ℚ) ≤ q := h q (List.mem_cons_self q qs)
      simp only [List.zip_cons_cons, List.map_cons, List.sum_cons]
      linarith


theorem reportTop3_map (classes : List String) (probs : List ℚ) :
    reportTop3 classes probs =
      (rankTop3 classes probs).map (fun cp => (cp.1, pyRound2 (cp.2 * 100))) := by
  rw [reportTop3]
  refine List.map_congr_left ?_
  intro cp hcp
  rw [ratMul100_eq]

theorem rankTop3_pairwise (classes : List String) (probs : List ℚ) :
    (rankTop3 classes probs).Pairwise DescOrd :=
  List.Pairwise.sublist (List.take_sublist _ _) (sortDesc_pairwise _)

theorem rankTop3_sum_le (classes : List String) (probs : List ℚ)
    (hnn : ∀ p ∈ probs, 0 ≤ p) (hsum : probs.sum ≤ 1) :
    ((rankTop3 classes probs).map Prod.snd).sum ≤ 1 := by
  have hmem : ∀ x ∈ (rankAll classes probs).map Prod.snd, 0 ≤ x := by
    intro x hx
    obtain ⟨cp, hcp, rfl⟩ := List.mem_map.mp hx
    have hz : cp ∈ classes.zip probs := (sortDesc_perm _).mem_iff.mp hcp
    exact hnn cp.2 (List.of_mem_zip hz).2
  have h1 : ((rankTop3 classes probs).map Prod.snd).sum ≤
      ((rankAll classes probs).map Prod.snd).sum := by
    rw [rankTop3, List.map_take]
    exact sum_take_le _ 3 hmem
  have h2 : ((rankAll classes probs).map Prod.snd).sum =
      ((classes.zip probs).map Prod.snd).sum :=
    ((sortDesc_perm _).map Prod.snd).sum_eq
  have h3 := sum_snd_zip_le classes probs hnn
  linarith

theorem reportTop3_spec (classes : List String) (probs : List ℚ)
    (hnn : ∀ p ∈ probs, 0 ≤ p) (hsum : probs.sum ≤ 1) :
    (reportTop3 classes probs).Pairwise DescOrd ∧
    ∃ raw : List (String × ℚ),
      reportTop3 classes probs = raw.map (fun cp => (cp.1, pyRound2 (cp.2 * 100))) ∧
      raw.Pairwise DescOrd ∧ (raw.map Prod.snd).sum ≤ 1 := by
  have hpair := rankTop3_pairwise classes probs
  refine ⟨?_, rankTop3 classes probs, reportTop3_map classes probs, hpair,
    rankTop3_sum_le classes probs hnn hsum⟩
  rw [reportTop3_map]
  refine List.Pairwise.map _ ?_ hpair
  intro a b hab
  show pyRound2 (b.2 * 100) ≤ pyRound2 (a.2 * 100)
  exact pyRound2_mono (mul_le_mul_of_nonneg_right hab (by norm_num))


theorem top3Of_some (b : ReqBody) (env : Option String) (prov : ProviderResult)
    (m : Model) (t3 : List (String × ℚ))
    (ht3 : top3Of (predict_crop b env prov m) = some t3) :
    ∃ vec probs, m.predict_proba vec = Except.ok probs ∧
      t3 = reportTop3 m.classes_ probs := by
  unfold predict_crop at ht3
  split at ht3
  · simp [top3Of] at ht3
  · simp [top3Of] at ht3
  · split at ht3
    · simp [top3Of] at ht3
    · split at ht3
      · simp [top3Of] at ht3
      · split at ht3
        · simp [top3Of] at ht3
        next vec hvec =>
          split at ht3
          · simp [top3Of] at ht3
          · split at ht3
            · simp [top3Of] at ht3
            next probs hprobs =>
              simp only [top3Of, Option.some.injEq] at ht3
              exact ⟨vec, probs, hprobs, ht3.symm⟩

/-- C5 counterexample: a syntactically unparseable JSON body makes
`request.json` raise `BadRequest`, which the catch-all at app.py lines 92-93
returns as HTTP 500 carrying the exception text — not the claimed 400. -/
theorem malformed_input_400_cex :
    predict_crop (.exc badJsonMsg) none (.exc "offline") m0 =
      ⟨500, .err badJsonMsg⟩ ∧ (500 : ℕ) ≠ 400 :=
  ⟨rfl, by decide⟩

/-- C5 (amended): a request whose body evaluates to `None` (no JSON body) or
to an empty JSON object is answered HTTP 400 with the MalformedInput message
"No input data provided"; a syntactically unparseable body instead raises
inside the `try` block and is returned by the catch-all as HTTP 500 with the
exception text, for every environment, provider and model. -/
theorem malformed_input_400 (env : Option String) (prov : ProviderResult) (m : Model) :
    predict_crop .noBody env prov m = ⟨400, .err "No input data provided"⟩ ∧
    predict_crop (.obj []) env prov m = ⟨400, .err "No input data provided"⟩ ∧
    ∀ msg, predict_crop (.exc msg) env prov m = ⟨500, .err msg⟩ :=
  ⟨rfl, rfl, fun _ => rfl⟩

/-- C2: when the request carries both `temperature` and `humidity` but has no
`city` key or no truthy credential, the weather provider is not invoked
(guard false, and the result holds for every provider oracle), and weather
resolution succeeds with exactly the caller-supplied values (source=manual). -/
theorem manual_weather_no_provider (data : Obj) (env : Option String)
    (prov : ProviderResult) (t h : JVal)
    (ht : lookup data "temperature" = some t)
    (hh : lookup data "humidity" = some h)
    (hno : hasKey data "city" = false ∨ apiKeyTruthy data env = false) :
    providerInvoked data env = false ∧ weatherStep data env prov = .ok (t, h) := by
  have hinv : providerInvoked data env = false := by
    rw [providerInvoked]
    rcases hno with hno | hno <;> simp [hno]
  refine ⟨hinv, ?_⟩
  rw [weatherStep, hinv]
  simp [ht, hh]

/-- C2 witness: `d2` supplies manual weather and no city; with an unset
environment credential the provider is skipped and `(25, 80)` is used. -/
theorem manual_weather_no_provider_witness :
    providerInvoked d2 none = false ∧
    weatherStep d2 none (.exc "network down") = .ok (.num 25, .num 80) :=
  manual_weather_no_provider d2 none (.exc "network down") (.num 25) (.num 80)
    (by decide) (by decide) (by decide)

/-- C10 counterexample: on a non-success provider response whose `message`
field is JSON null, `get_weather` returns neither a reading nor an error,
contradicting the claim that exactly one of the two is always present. -/
theorem get_weather_shape_cex : get_weather nullMsgResp = (none, none) := by decide

/-- C10 (amended): `get_weather` never returns a reading together with an
error; when it returns no reading the error is non-null except in the single
case of a non-success response whose `message` field is literally JSON null
(then both components are `None`). A non-null error is the provider's
message value, "Unknown error", or the caught exception text. -/
theorem get_weather_shape (r : ProviderResult) :
    (∀ th, (get_weather r).1 = some th → (get_weather r).2 = none) ∧
    ((get_weather r).1 = none →
      ((get_weather r).2 = none ↔ msgFieldNull r = true)) := by
  cases r with
  | exc msg => simp [get_weather, msgFieldNull]
  | resp q =>
    by_cases hc : q.cod = some (JVal.num 200)
    · rw [get_weather]
      rw [if_pos hc]
      cases hm : q.main with
      | none => simp [msgFieldNull, hc]
      | some mo =>
        cases hT : lookup mo "temp" with
        | none => simp [msgFieldNull, hc, hT]
        | some tv =>
          cases hH : lookup mo "humidity" with
          | none => simp [msgFieldNull, hc, hT, hH]
          | some hv => simp [hT, hH]
    · rw [get_weather]
      rw [if_neg hc]
      cases hmsg : q.message with
      | none => simp [msgFieldNull, hc, hmsg]
      | some v => cases v <;> simp [pyNone, msgFieldNull, hc, hmsg]

/-- C10 witness: a raised provider exception yields no reading, and its
error component is non-None, matching `msgFieldNull = false`. -/
theorem get_weather_shape_witness :
    ((get_weather (ProviderResult.exc "timeout")).2 = none ↔
      msgFieldNull (ProviderResult.exc "timeout") = true) :=
  (get_weather_shape (ProviderResult.exc "timeout")).2 (by decide)

/-- C1: whenever a request reaches prediction (weather resolved to `(t, h)`
and assembly succeeded), the feature vector has exactly 7 entries in the
fixed order `[N, P, K, temperature, humidity, ph, rainfall]` matching the
7 fixed column names: temperature and humidity are the resolved weather
values and the other five come from the request's soil fields; when all
seven values are numbers the vector is fully numeric. -/
theorem feature_vector_fixed_order (data : Obj) (env : Option String)
    (prov : ProviderResult) (t h : JVal) (vec : List JVal)
    (hw : weatherStep data env prov = .ok (t, h))
    (ha : assemble data t h = .ok vec) :
    vec.length = 7 ∧ featureColumns.length = 7 ∧
    ∃ n p k ph rf,
      lookup data "N" = some n ∧ lookup data "P" = some p ∧
      lookup data "K" = some k ∧ lookup data "ph" = some ph ∧
      lookup data "rainfall" = some rf ∧
      vec = [n, p, k, t, h, ph, rf] ∧
      (isNum n → isNum p → isNum k → isNum t → isNum h → isNum ph → isNum rf →
        ∀ v ∈ vec, isNum v) := by
  cases hN : lookup data "N" with
  | none => rw [assemble, hN] at ha; simp at ha
  | some n =>
  cases hP : lookup data "P" with
  | none => rw [assemble, hN, hP] at ha; simp at ha
  | some p =>
  cases hK : lookup data "K" with
  | none => rw [assemble, hN, hP, hK] at ha; simp at ha
  | some k =>
  cases hPH : lookup data "ph" with
  | none => rw [assemble, hN, hP, hK, hPH] at ha; simp at ha
  | some ph =>
  cases hRF : lookup data "rainfall" with
  | none => rw [assemble, hN, hP, hK, hPH, hRF] at ha; simp at ha
  | some rf =>
    rw [assemble, hN, hP, hK, hPH, hRF] at ha
    injection ha with ha
    subst ha
    refine ⟨rfl, rfl, n, p, k, ph, rf, rfl, rfl, rfl, rfl, rfl, rfl, ?_⟩
    intro h1 h2 h3 h4 h5 h6 h7 v hv
    simp only [List.mem_cons, List.not_mem_nil, or_false] at hv
    rcases hv with rfl | rfl | rfl | rfl | rfl | rfl | rfl <;> assumption

/-- C1 witness: on the concrete body `cexData` the assembled vector is
`[90, 42, 43, 25, 80, 6.5, 200]`. -/
theorem feature_vector_fixed_order_witness :
    ([JVal.num 90, .num 42, .num 43, .num 25, .num 80,
      .num (mkRat 13 2), .num 200] : List JVal).length = 7 ∧
    featureColumns.length = 7 ∧
    ∃ n p k ph rf,
      lookup cexData "N" = some n ∧ lookup cexData "P" = some p ∧
      lookup cexData "K" = some k ∧ lookup cexData "ph" = some ph ∧
      lookup cexData "rainfall" = some rf ∧
      ([JVal.num 90, .num 42, .num 43, .num 25, .num 80,
        .num (mkRat 13 2), .num 200] : List JVal) = [n, p, k, .num 25, .num 80, ph, rf] ∧
      (isNum n → isNum p → isNum k → isNum (.num 25) → isNum (.num 80) →
        isNum ph → isNum rf →
        ∀ v ∈ ([JVal.num 90, .num 42, .num 43, .num 25, .num 80,
          .num (mkRat 13 2), .num 200] : List JVal), isNum v) :=
  feature_vector_fixed_order cexData none (.exc "offline") (.num 25) (.num 80)
    _ rfl rfl

/-- C3: when weather resolves but exactly one of the five required soil
fields is absent (the other four present), the pipeline answers HTTP 400
with "Missing required field: " followed by exactly that field, quoted as
Python's `str(KeyError)` does. -/
theorem missing_soil_field_400 (data : Obj) (env : Option String)
    (prov : ProviderResult) (m : Model) (t h : JVal) (f : String)
    (hf : f ∈ ["N", "P", "K", "ph", "rainfall"])
    (hmiss : lookup data f = none)
    (hrest : ∀ g ∈ ["N", "P", "K", "ph", "rainfall"], g ≠ f → (lookup data g).isSome = true)
    (hw : weatherStep data env prov = .ok (t, h)) :
    predict_crop (.obj data) env prov m =
      ⟨400, .err ("Missing required field: \x27" ++ f ++ "\x27")⟩ := by
  have hdata : data.isEmpty = false := by
    cases data with
    | nil =>
      exfalso
      by_cases hfN : f = "N"
      · have hP := hrest "P" (by simp) (by rw [hfN]; decide)
        simp [lookup] at hP
      · have hN := hrest "N" (by simp) (fun hc => hfN hc.symm)
        simp [lookup] at hN
    | cons a l => rfl
  have hasm : assemble data t h = .error f := by
    fin_cases hf
    · rw [assemble, hmiss]
    · obtain ⟨n, hn⟩ := Option.isSome_iff_exists.mp (hrest "N" (by simp) (by decide))
      rw [assemble, hn, hmiss]
    · obtain ⟨n, hn⟩ := Option.isSome_iff_exists.mp (hrest "N" (by simp) (by decide))
      obtain ⟨p, hp⟩ := Option.isSome_iff_exists.mp (hrest "P" (by simp) (by decide))
      rw [assemble, hn, hp, hmiss]
    · obtain ⟨n, hn⟩ := Option.isSome_iff_exists.mp (hrest "N" (by simp) (by decide))
      obtain ⟨p, hp⟩ := Option.isSome_iff_exists.mp (hrest "P" (by simp) (by decide))
      obtain ⟨k, hk⟩ := Option.isSome_iff_exists.mp (hrest "K" (by simp) (by decide))
      rw [assemble, hn, hp, hk, hmiss]
    · obtain ⟨n, hn⟩ := Option.isSome_iff_exists.mp (hrest "N" (by simp) (by decide))
      obtain ⟨p, hp⟩ := Option.isSome_iff_exists.mp (hrest "P" (by simp) (by decide))
      obtain ⟨k, hk⟩ := Option.isSome_iff_exists.mp (hrest "K" (by simp) (by decide))
      obtain ⟨ph2, hph⟩ := Option.isSome_iff_exists.mp (hrest "ph" (by simp) (by decide))
      rw [assemble, hn, hp, hk, hph, hmiss]
  simp [predict_crop, hdata, hw, hasm]

/-- C3 witness: `d3` omits exactly `K`; the response is the 400 naming `K`. -/
theorem missing_soil_field_400_witness :
    predict_crop (.obj d3) none (.exc "offline") m0 =
      ⟨400, .err "Missing required field: \x27K\x27"⟩ := by
  have h := missing_soil_field_400 d3 none (.exc "offline") m0
    (.num 25) (.num 80) "K" (by decide) (by decide)
    (by intro g hg hne; fin_cases hg <;> first | decide | (exfalso; exact hne rfl))
    rfl
  rw [h]
  rfl

/-- C4: when no weather reading is obtained (provider skipped, or invoked
and failed) and the manual fallback is unavailable (temperature or humidity
missing), the pipeline answers HTTP 500 with a message built from the
provider's error (str()-formatted; "None" when the provider was never
invoked) followed by the instruction to provide temperature and humidity
manually. -/
theorem weather_unavailable_500 (data : Obj) (env : Option String)
    (prov : ProviderResult) (m : Model)
    (hne : data.isEmpty = false)
    (hprov : providerInvoked data env = true → (get_weather prov).1 = none)
    (hman : lookup data "temperature" = none ∨ lookup data "humidity" = none) :
    predict_crop (.obj data) env prov m =
      ⟨500, .err ("Weather API failed: " ++
        pyStrOpt (if providerInvoked data env then (get_weather prov).2 else none) ++
        ". Provide \x27temperature\x27 and \x27humidity\x27 manually.")⟩ := by
  have hws : weatherStep data env prov =
      .error (if providerInvoked data env then (get_weather prov).2 else none) := by
    rw [weatherStep]
    by_cases hpi : providerInvoked data env
    · rcases hgw : get_weather prov with ⟨w, e⟩
      have h1 : w = none := by
        have := hprov hpi
        rwa [hgw] at this
      subst h1
      rw [if_pos hpi]
      rcases hman with hm | hm
      · simp [hpi, hm]
      · cases h2 : lookup data "temperature" <;> simp [hpi, h2, hm]
    · rw [if_neg hpi, if_neg hpi]
      rcases hman with hm | hm
      · simp [hm]
      · cases h1 : lookup data "temperature" <;> simp [h1, hm]
  simp [predict_crop, hne, hws]

/-- C4 witness: a city with an invalid credential and no manual values gives
the 500 carrying the provider's message and the manual-override instruction. -/
theorem weather_unavailable_500_witness :
    predict_crop (.obj d4) (some "key") prov4 m0 =
      ⟨500, .err ("Weather API failed: Invalid API key. " ++
        "Provide \x27temperature\x27 and \x27humidity\x27 manually.")⟩ := by
  have h := weather_unavailable_500 d4 (some "key") prov4 m0
    (by decide) (by intro hcall; decide) (by decide)
  rw [h]
  rfl

/-- C9: when all five soil fields are present, assembly succeeds regardless
of the values' types (no MissingField/400): the raw values reach the
classifier, and an inference exception surfaces as HTTP 500 carrying the
exception text via the catch-all handler. -/
theorem non_numeric_passthrough_500 (data : Obj) (env : Option String)
    (prov : ProviderResult) (m : Model) (t h n p k ph rf : JVal) (s : String)
    (hw : weatherStep data env prov = .ok (t, h))
    (hN : lookup data "N" = some n) (hP : lookup data "P" = some p)
    (hK : lookup data "K" = some k) (hPH : lookup data "ph" = some ph)
    (hRF : lookup data "rainfall" = some rf)
    (hpred : m.predict [n, p, k, t, h, ph, rf] = .error s) :
    assemble data t h = .ok [n, p, k, t, h, ph, rf] ∧
    predict_crop (.obj data) env prov m = ⟨500, .err s⟩ := by
  have hdata : data.isEmpty = false := by
    cases data with
    | nil => simp [lookup] at hN
    | cons a l => rfl
  have hasm : assemble data t h = .ok [n, p, k, t, h, ph, rf] := by
    rw [assemble, hN, hP, hK, hPH, hRF]
  exact ⟨hasm, by simp [predict_crop, hdata, hw, hasm, hpred]⟩

/-- C9 witness: `d9` carries the string "abc" for `N`; assembly succeeds and
the classifier's exception text is returned with status 500. -/
theorem non_numeric_passthrough_500_witness :
    assemble d9 (.num 25) (.num 80) =
      .ok [.str "abc", .num 42, .num 43, .num 25, .num 80, .num 7, .num 200] ∧
    predict_crop (.obj d9) none (.exc "offline") m9 =
      ⟨500, .err "could not convert string to float: \x27abc\x27"⟩ :=
  non_numeric_passthrough_500 d9 none (.exc "offline") m9
    (.num 25) (.num 80) (.str "abc") (.num 42) (.num 43) (.num 7) (.num 200)
    "could not convert string to float: \x27abc\x27"
    rfl (by decide) (by decide) (by decide) (by decide) (by decide) rfl

/-- C6: the ranking sorts the zipped (label, probability) pairs by
full-precision probability, descending, and is stable: for every probability
value, the entries carrying it appear in the output exactly in the
classifier's native label order. Rounding happens only in `reportTop3`,
after this sort, so rounded percentages never enter the comparisons. -/
theorem rank_sorted_stable (classes : List String) (probs : List ℚ) :
    (rankAll classes probs).Pairwise DescOrd ∧
    ∀ q : ℚ, (rankAll classes probs).filter (fun z => decide (z.2 = q)) =
      (classes.zip probs).filter (fun z => decide (z.2 = q)) :=
  ⟨sortDesc_pairwise _, fun q => sortDesc_filter q _⟩

/-- C7 counterexample: a successful response whose three reported
(rounded) percentages are 33.34, 33.34 and 33.33, summing to 100.01 > 100,
although the underlying distribution sums to exactly 1. -/
theorem top3_percent_sum_cex :
    top3Of (predict_crop (.obj cexData) none (.exc "boom") m0) =
      some [("a", mkRat 3334 100), ("b", mkRat 3334 100), ("c", mkRat 3333 100)] ∧
    ¬(mkRat 3334 100 + mkRat 3334 100 + mkRat 3333 100 ≤ 100) := by
  constructor
  · decide
  · simp only [Rat.mkRat_eq_divInt, Rat.divInt_eq_div]
    push_cast
    norm_num

/-- C7 (amended): in every successful response of a model whose
distributions are nonnegative and sum to at most 1, the top3 sequence is
sorted by descending probability, each reported value is the full-precision
probability scaled to a percentage and rounded half-to-even at 2 decimals,
and the three full-precision probabilities sum to at most 1 (i.e. at most
100%); the rounded percentages themselves may exceed 100% in sum. -/
theorem top3_rounded_sorted (b : ReqBody) (env : Option String)
    (prov : ProviderResult) (m : Model)
    (hm : ∀ v ps, m.predict_proba v = Except.ok ps → distOk ps = true)
    (t3 : List (String × ℚ))
    (ht3 : top3Of (predict_crop b env prov m) = some t3) :
    t3.Pairwise DescOrd ∧
    ∃ raw : List (String × ℚ),
      t3 = raw.map (fun cp => (cp.1, pyRound2 (cp.2 * 100))) ∧
      raw.Pairwise DescOrd ∧ (raw.map Prod.snd).sum ≤ 1 := by
  obtain ⟨vec, probs, hprobs, rfl⟩ := top3Of_some b env prov m t3 ht3
  obtain ⟨hnn, hsum⟩ := distOk_spec (hm vec probs hprobs)
  exact reportTop3_spec m.classes_ probs hnn hsum

/-- C7 witness: the amended statement instantiated on the concrete
request `cexData` and model `m0`. -/
theorem top3_rounded_sorted_witness :
    ([("a", mkRat 3334 100), ("b", mkRat 3334 100), ("c", mkRat 3333 100)] :
        List (String × ℚ)).Pairwise DescOrd ∧
    ∃ raw : List (String × ℚ),
      ([("a", mkRat 3334 100), ("b", mkRat 3334 100), ("c", mkRat 3333 100)] :
          List (String × ℚ)) =
        raw.map (fun cp => (cp.1, pyRound2 (cp.2 * 100))) ∧
      raw.Pairwise DescOrd ∧ (raw.map Prod.snd).sum ≤ 1 :=
  top3_rounded_sorted (.obj cexData) none (.exc "boom2") m0
    (fun v ps hps => by
      have hps2 : ps = [mkRat 33336 100000, mkRat 33336 100000, mkRat 33328 100000] :=
        (Except.ok.inj hps).symm
      rw [hps2]
      decide)
    [("a", mkRat 3334 100), ("b", mkRat 3334 100), ("c", mkRat 3333 100)]
    (by decide)

/-- C8: the ranking-and-rounding step is a pure function of the classifier's
label list and the distribution at the given feature vector: two models (or
two runs) agreeing on those produce identical label ordering and identical
rounded percentages. -/
theorem rank_deterministic (m1 m2 : Model) (v : List JVal) (ps1 ps2 : List ℚ)
    (hc : m1.classes_ = m2.classes_)
    (h1 : m1.predict_proba v = .ok ps1) (h2 : m2.predict_proba v = .ok ps2)
    (hpp : m1.predict_proba v = m2.predict_proba v) :
    reportTop3 m1.classes_ ps1 = reportTop3 m2.classes_ ps2 := by
  have hps : ps1 = ps2 := by
    rw [h1, h2] at hpp
    exact Except.ok.inj hpp
  rw [hc, hps]

/-- C8 witness: models `m0` and `m8` share labels and distribution but
differ in the label op; the ranked output is identical. -/
theorem rank_deterministic_witness :
    reportTop3 m0.classes_ [mkRat 33336 100000, mkRat 33336 100000, mkRat 33328 100000] =
    reportTop3 m8.classes_ [mkRat 33336 100000, mkRat 33336 100000, mkRat 33328 100000] :=
  rank_deterministic m0 m8 [] _ _ rfl rfl rfl rfl

end CropApp
